import Mathlib

/-!
Verification of the conversation-streaming session manager of the PDF
analyzer repository.

The embedding covers:
- `routeStep` / `routeFold`: the event-folding loop of the POST handler in
  `src/app/api/chat/route.ts` (lines 62-124), which consumes the OpenAI
  Responses stream events and accumulates `responseContent`, `citations`,
  `responseId` and `usage`, enqueueing SSE frames (`delta`, `status`,
  `complete`, `error`).
- `postHandler`: the top of the same POST handler (lines 10-49): the
  destructuring of the JSON body, the logging line that evaluates
  `message.substring(0, 50)` before the `!message` check, the two
  validation branches, and the construction of the outbound OpenAI request
  (with `previous_response_id` spread in only when truthy).
- `sendMessage` / `resetOnNewPDF`: the client session state machine of
  `src/components/PDFChat.tsx`: the submission guard, the optimistic user
  message, the request body, the success path (append assistant message,
  update `lastResponseId`) and the failure path (set error, keep token),
  and the corpus-change reset effect (lines 44-50).

Remote I/O is shallowly embedded: the result of the `fetch` to `/api/chat`
is a `FetchOutcome` parameter, and the OpenAI SDK stream is a
`List OAIEvent` parameter. JavaScript `undefined`/`null` string fields are
`Option String`; JS truthiness of such a field is `jsTruthy`.
-/

/-- A citation as pushed by the route and rendered by the client:
corresponds to the literal object `{ file_id, filename }`. -/
structure Citation where
  file_id : String
  filename : String
deriving Repr, DecidableEq, BEq

/-- The payload of a `response.output_text_annotation.added` event: the route
reads `.type`, `.file_id` and `.filename` from it. -/
structure AnnotationData where
  type : String
  file_id : String
  filename : String
deriving Repr, DecidableEq

/-- The `usage` object copied from the `response.completed` event. -/
structure UsageInfo where
  input_tokens : Nat
  output_tokens : Nat
  total_tokens : Nat
deriving Repr, DecidableEq

/-- The OpenAI Responses stream events distinguished by the `switch` on
`event.type` in route.ts; `unrecognized` stands for every discriminator
with no `case` arm (the switch has no `default`, so such an event is
skipped). -/
inductive OAIEvent where
  | responseCreated (response_id : String)
  | outputTextDelta (delta : String)
  | annotationAdded (a : AnnotationData)
  | fileSearchInProgress
  | fileSearchSearching
  | fileSearchCompleted
  | responseCompleted (usage : Option UsageInfo)
  | errorEvent (error : String)
  | unrecognized (eventType : String)
deriving Repr, DecidableEq

/-- The mutable locals of the route's stream loop:
`responseContent`, `citations`, `responseId`, `usage`. -/
structure RouteState where
  responseContent : String
  citations : List Citation
  responseId : String
  usage : Option UsageInfo
deriving Repr, DecidableEq

/-- Initial values of the route's loop locals: `''`, `[]`, `''`, `null`. -/
def initialRouteState : RouteState :=
  { responseContent := "", citations := [], responseId := "", usage := none }

/-- An SSE frame enqueued by the route (`data: <json>\n\n` with the given
`type` discriminator and payload). -/
inductive Frame where
  | delta (content : String)
  | status (message : String)
  | complete (response : String) (citations : List Citation)
      (responseId : String) (usage : Option UsageInfo)
  | error (error : String)
deriving Repr, DecidableEq

/-- One iteration of the route's `for await` loop: the `switch` over
`event.type` in route.ts lines 65-123. Returns the updated loop locals and
the list of frames enqueued for this event. -/
def routeStep (st : RouteState) (ev : OAIEvent) : RouteState × List Frame :=
  match ev with
  | .responseCreated rid => ({ st with responseId := rid }, [])
  | .outputTextDelta d =>
      ({ st with responseContent := st.responseContent ++ d }, [.delta d])
  | .annotationAdded a =>
      if a.type = "file_citation" then
        ({ st with citations := st.citations ++ [⟨a.file_id, a.filename⟩] }, [])
      else (st, [])
  | .fileSearchInProgress => (st, [.status "Searching through your PDF..."])
  | .fileSearchSearching => (st, [])
  | .fileSearchCompleted => (st, [])
  | .responseCompleted u =>
      ({ st with usage := u },
       [.complete st.responseContent st.citations st.responseId u])
  | .errorEvent e => (st, [.error e])
  | .unrecognized _ => (st, [])

/-- The whole `for await (const event of stream)` loop: fold `routeStep`
over the event list, collecting the enqueued frames in order. -/
def routeFold (st : RouteState) (evs : List OAIEvent) : RouteState × List Frame :=
  match evs with
  | [] => (st, [])
  | ev :: rest =>
      let s1 := routeStep st ev
      let s2 := routeFold s1.1 rest
      (s2.1, s1.2 ++ s2.2)

/-- Concatenation of a list of strings (specification-side helper). -/
def strConcat : List String → String
  | [] => ""
  | s :: rest => s ++ strConcat rest

/-- The delta payloads of an event list, in order (specification-side
helper used to characterize `responseContent`). -/
def deltaTexts : List OAIEvent → List String
  | [] => []
  | .outputTextDelta d :: rest => d :: deltaTexts rest
  | _ :: rest => deltaTexts rest

/-- The `file_citation` annotation payloads of an event list, in arrival
order (specification-side helper used to characterize `citations`). -/
def fileCitations : List OAIEvent → List Citation
  | [] => []
  | .annotationAdded a :: rest =>
      if a.type = "file_citation" then
        ⟨a.file_id, a.filename⟩ :: fileCitations rest
      else fileCitations rest
  | _ :: rest => fileCitations rest

/-- Whether an event is the `response.completed` terminal event. -/
def isCompletedEvent : OAIEvent → Bool
  | .responseCompleted _ => true
  | _ => false

/-- Whether a frame is the `complete` frame. -/
def isCompleteFrame : Frame → Bool
  | .complete _ _ _ _ => true
  | _ => false

theorem routeFold_cons (st : RouteState) (ev : OAIEvent) (rest : List OAIEvent) :
    routeFold st (ev :: rest) =
      ((routeFold (routeStep st ev).1 rest).1,
       (routeStep st ev).2 ++ (routeFold (routeStep st ev).1 rest).2) := rfl

theorem routeFold_append (st : RouteState) (evs1 evs2 : List OAIEvent) :
    routeFold st (evs1 ++ evs2) =
      ((routeFold (routeFold st evs1).1 evs2).1,
       (routeFold st evs1).2 ++ (routeFold (routeFold st evs1).1 evs2).2) := by
  induction evs1 generalizing st with
  | nil => simp [routeFold]
  | cons ev rest ih =>
      simp only [List.cons_append, routeFold_cons, ih, List.append_assoc]

theorem routeFold_content (st : RouteState) (evs : List OAIEvent) :
    (routeFold st evs).1.responseContent =
      st.responseContent ++ strConcat (deltaTexts evs) := by
  induction evs generalizing st with
  | nil => simp [routeFold, strConcat, deltaTexts]
  | cons ev rest ih =>
      cases ev with
      | outputTextDelta d =>
          simp [routeFold_cons, routeStep, deltaTexts, strConcat, ih,
            String.append_assoc]
      | annotationAdded a =>
          by_cases h : a.type = "file_citation" <;>
            simp [routeFold_cons, routeStep, deltaTexts, ih, h]
      | _ => simp [routeFold_cons, routeStep, deltaTexts, ih]

theorem routeFold_citations (st : RouteState) (evs : List OAIEvent) :
    (routeFold st evs).1.citations = st.citations ++ fileCitations evs := by
  induction evs generalizing st with
  | nil => simp [routeFold, fileCitations]
  | cons ev rest ih =>
      cases ev with
      | annotationAdded a =>
          by_cases h : a.type = "file_citation" <;>
            simp [routeFold_cons, routeStep, fileCitations, ih, h]
      | _ => simp [routeFold_cons, routeStep, fileCitations, ih]

theorem routeFold_no_complete_frame (st : RouteState) (evs : List OAIEvent)
    (h : evs.all (fun ev => !isCompletedEvent ev) = true) :
    (routeFold st evs).2.all (fun f => !isCompleteFrame f) = true := by
  induction evs generalizing st with
  | nil => simp [routeFold]
  | cons ev rest ih =>
      simp only [List.all_cons, Bool.and_eq_true] at h
      rw [routeFold_cons]
      simp only [List.all_append, Bool.and_eq_true]
      refine ⟨?_, ih _ h.2⟩
      cases ev with
      | annotationAdded a =>
          by_cases ha : a.type = "file_citation" <;>
            simp [routeStep, isCompleteFrame, ha]
      | responseCompleted u => simp [isCompletedEvent] at h
      | _ => simp [routeStep, isCompleteFrame]

/-- A chat message as held in the client transcript (`Message` interface in
PDFChat.tsx); `timestamp` is the `Date.now()`-style clock value, taken as a
parameter of the embedding. -/
structure Message where
  id : String
  content : String
  role : String
  timestamp : Nat
  citations : Option (List Citation)
  responseId : Option String
deriving Repr, DecidableEq

/-- The client component state held in React state cells:
`messages`, `input`, `isLoading`, `error`, `lastResponseId`. -/
structure ChatState where
  messages : List Message
  input : String
  isLoading : Bool
  error : Option String
  lastResponseId : Option String
deriving Repr, DecidableEq

/-- JavaScript truthiness of an optional string field:
`undefined`/`null` and the empty string are falsy. -/
def jsTruthy : Option String → Bool
  | none => false
  | some s => s ≠ ""

/-- The JSON body the client posts to `/api/chat`
(`{ message, vectorStoreId, previousResponseId }`). -/
structure ChatRequest where
  message : String
  vectorStoreId : String
  previousResponseId : Option String
deriving Repr, DecidableEq

/-- The parsed JSON the client reads from the chat response on the success
path (`data.response`, `data.citations`, `data.responseId`). -/
structure ChatResponseData where
  response : String
  citations : Option (List Citation)
  responseId : Option String
deriving Repr, DecidableEq

/-- The observable result of the client's `fetch`/`response.json()` pair:
`ok` when the response was 2xx and parsed, `httpError` when `response.ok`
was false (carrying `data.error`), `thrown` when the fetch or the JSON
parse threw (network failure, or a non-JSON body such as an SSE stream
that ended early). -/
inductive FetchOutcome where
  | ok (data : ChatResponseData)
  | httpError (error : Option String)
  | thrown
deriving Repr, DecidableEq

/-- JavaScript `String.prototype.trim`: the string with leading and
trailing whitespace removed (structurally recursive so concrete calls
evaluate in the kernel). -/
def jsTrim (s : String) : String :=
  ⟨((s.data.dropWhile Char.isWhitespace).reverse.dropWhile
      Char.isWhitespace).reverse⟩

/-- The optimistic user message appended on submission:
`{ id: Date.now().toString(), content: input.trim(), role: 'user', timestamp }`. -/
def mkUserMessage (input : String) (now : Nat) : Message :=
  { id := toString now, content := jsTrim input, role := "user",
    timestamp := now, citations := none, responseId := none }

/-- The assistant message built on the success path:
`{ id: (Date.now()+1).toString(), content: data.response, role: 'assistant',
citations: data.citations || [], responseId: data.responseId }`. -/
def mkAssistantMessage (data : ChatResponseData) (now : Nat) : Message :=
  { id := toString (now + 1), content := data.response, role := "assistant",
    timestamp := now, citations := some (data.citations.getD []),
    responseId := data.responseId }

/-- The client's `sendMessage` (PDFChat.tsx lines 52-103), with the fetch
outcome passed in. Returns the post-turn state and the request body sent
(`none` when the guard `!input.trim() || isLoading || !vectorStoreId`
rejected the call). The guard branch is a bare `return`: no state cell is
touched. On acceptance the user message is appended, the input cleared and
the error reset before the fetch; on success one assistant message is
appended and `lastResponseId := data.responseId`; on any caught error the
fixed error string is set and `lastResponseId` is untouched; `finally`
clears `isLoading`. -/
def sendMessage (s : ChatState) (now : Nat) (vectorStoreId : Option String)
    (outcome : FetchOutcome) : ChatState × Option ChatRequest :=
  if jsTrim s.input = "" ∨ s.isLoading = true ∨ jsTruthy vectorStoreId = false then
    (s, none)
  else
    let userMsg := mkUserMessage s.input now
    let req : ChatRequest :=
      { message := jsTrim s.input, vectorStoreId := vectorStoreId.getD "",
        previousResponseId := s.lastResponseId }
    match outcome with
    | .ok data =>
        ({ messages := s.messages ++ [userMsg, mkAssistantMessage data now],
           input := "", isLoading := false, error := none,
           lastResponseId := data.responseId }, some req)
    | _ =>
        ({ messages := s.messages ++ [userMsg], input := "",
           isLoading := false,
           error := some "Failed to get AI response. Please try again.",
           lastResponseId := s.lastResponseId }, some req)

/-- The corpus-change reset effect (PDFChat.tsx lines 44-50): when a new
PDF upload flips the `onNewPDF` flag truthy, the effect body runs
`setMessages([]); setLastResponseId(null); setError(null)`. No other state
cell is written: in particular `isLoading` is left as it was. -/
def resetOnNewPDF (s : ChatState) : ChatState :=
  { s with messages := [], lastResponseId := none, error := none }

/-- The JSON body destructured at the top of the route's POST handler;
each field may be absent (`undefined`). -/
structure ChatRequestBody where
  message : Option String
  vectorStoreId : Option String
  previousResponseId : Option String
deriving Repr, DecidableEq

/-- The request the route passes to `openai.responses.create`:
`previous_response_id` is present only when `previousResponseId` was truthy
(the conditional spread on line 46). -/
structure OpenAIRequest where
  model : String
  inputText : String
  vector_store_ids : List String
  previous_response_id : Option String
  store : Bool
  stream : Bool
deriving Repr, DecidableEq

/-- The observable outcome of the POST handler before any stream event is
processed: a 400 validation response, the 500 catch-all response, or a
streaming response opened with the given OpenAI request. -/
inductive PostOutcome where
  | badRequest (error : String)
  | serverError (error : String)
  | streaming (req : OpenAIRequest)
deriving Repr, DecidableEq

/-- The top of the route's POST handler (route.ts lines 10-49). The
logging call evaluates `message.substring(0, 50)` before any validation:
when `message` is absent this throws a TypeError that the outer catch
(lines 141-147) turns into the 500 `'Failed to generate response'`
response, so the `!message` check only ever fires for a present but falsy
(empty-string) message. -/
def postHandler (body : ChatRequestBody) : PostOutcome :=
  match body.message with
  | none => .serverError "Failed to generate response"
  | some m =>
      if m = "" then .badRequest "Message is required"
      else if jsTruthy body.vectorStoreId = false then
        .badRequest "Vector store ID is required"
      else
        .streaming
          { model := "gpt-4o-mini", inputText := m,
            vector_store_ids := [body.vectorStoreId.getD ""],
            previous_response_id :=
              if jsTruthy body.previousResponseId then body.previousResponseId
              else none,
            store := true, stream := true }

/-- The client request body as received by the route: every field the
client serializes is present (a `null` `previousResponseId` is serialized
and arrives as a falsy value, i.e. `none` here). -/
def toBody (r : ChatRequest) : ChatRequestBody :=
  { message := some r.message, vectorStoreId := some r.vectorStoreId,
    previousResponseId := r.previousResponseId }

theorem sendMessage_ok (s : ChatState) (now : Nat) (v : Option String)
    (data : ChatResponseData)
    (hin : jsTrim s.input ≠ "") (hload : s.isLoading = false)
    (hv : jsTruthy v = true) :
    sendMessage s now v (.ok data) =
      ({ messages := s.messages ++
            [mkUserMessage s.input now, mkAssistantMessage data now],
         input := "", isLoading := false, error := none,
         lastResponseId := data.responseId },
       some { message := jsTrim s.input, vectorStoreId := v.getD "",
              previousResponseId := s.lastResponseId }) := by
  have hg : ¬ (jsTrim s.input = "" ∨ s.isLoading = true ∨ jsTruthy v = false) := by
    simp [hin, hload, hv]
  unfold sendMessage
  rw [if_neg hg]

theorem sendMessage_fail (s : ChatState) (now : Nat) (v : Option String)
    (outcome : FetchOutcome)
    (hin : jsTrim s.input ≠ "") (hload : s.isLoading = false)
    (hv : jsTruthy v = true)
    (hnotok : ∀ d, outcome ≠ FetchOutcome.ok d) :
    sendMessage s now v outcome =
      ({ messages := s.messages ++ [mkUserMessage s.input now],
         input := "", isLoading := false,
         error := some "Failed to get AI response. Please try again.",
         lastResponseId := s.lastResponseId },
       some { message := jsTrim s.input, vectorStoreId := v.getD "",
              previousResponseId := s.lastResponseId }) := by
  have hg : ¬ (jsTrim s.input = "" ∨ s.isLoading = true ∨ jsTruthy v = false) := by
    simp [hin, hload, hv]
  unfold sendMessage
  rw [if_neg hg]
  cases outcome with
  | ok d => exact absurd rfl (hnotok d)
  | httpError e => rfl
  | thrown => rfl

/-- C1: for every turn that completes successfully, the route's terminal
`response.completed` step emits exactly one `complete` frame carrying the
accumulated text, citations and recorded turn id, and the client appends
exactly one assistant message built from that data, updates
`lastResponseId` to the turn's id, and grows the transcript by exactly two
messages (the user message appended at submission plus the one assistant
message appended at completion). -/
theorem c1_completed_turn_appends_one_assistant
    (s : ChatState) (now : Nat) (v : Option String) (data : ChatResponseData)
    (rst : RouteState) (u : Option UsageInfo)
    (hin : jsTrim s.input ≠ "") (hload : s.isLoading = false)
    (hv : jsTruthy v = true) :
    routeStep rst (.responseCompleted u)
      = ({ rst with usage := u },
         [Frame.complete rst.responseContent rst.citations rst.responseId u]) ∧
    (sendMessage s now v (.ok data)).1.messages
      = s.messages ++ [mkUserMessage s.input now, mkAssistantMessage data now] ∧
    (sendMessage s now v (.ok data)).1.lastResponseId = data.responseId ∧
    (sendMessage s now v (.ok data)).1.messages.length = s.messages.length + 2 ∧
    (mkAssistantMessage data now).content = data.response ∧
    (mkAssistantMessage data now).citations = some (data.citations.getD []) ∧
    (mkAssistantMessage data now).responseId = data.responseId := by
  refine ⟨rfl, ?_, ?_, ?_, rfl, rfl, rfl⟩ <;>
    simp [sendMessage_ok s now v data hin hload hv]

def sampleState : ChatState :=
  { messages := [], input := "What is this document about?",
    isLoading := false, error := none, lastResponseId := none }

def sampleData : ChatResponseData :=
  { response := "The document discusses X.",
    citations := some [⟨"f1", "doc.pdf"⟩], responseId := some "r1" }

theorem c1_completed_turn_appends_one_assistant_witness :
    jsTrim sampleState.input ≠ "" ∧ sampleState.isLoading = false ∧
    jsTruthy (some "vs_1") = true ∧
    ((sendMessage sampleState 7 (some "vs_1") (.ok sampleData)).1.messages
        = sampleState.messages ++
            [mkUserMessage sampleState.input 7, mkAssistantMessage sampleData 7] ∧
     (sendMessage sampleState 7 (some "vs_1") (.ok sampleData)).1.lastResponseId
        = some "r1") := by
  have h := c1_completed_turn_appends_one_assistant sampleState 7 (some "vs_1")
    sampleData initialRouteState none (by decide) rfl (by decide)
  exact ⟨by decide, rfl, by decide, h.2.1, h.2.2.1.trans rfl⟩

/-- C2: every failed turn (HTTP error result or thrown fetch / JSON parse,
covering transport failure, remote error and premature termination alike)
sets the fixed error string, clears `isLoading`, leaves `lastResponseId`
at its pre-turn value, appends zero assistant messages, and retains the
optimistic user message in the transcript. -/
theorem c2_failed_turn_contract
    (s : ChatState) (now : Nat) (v : Option String) (outcome : FetchOutcome)
    (hin : jsTrim s.input ≠ "") (hload : s.isLoading = false)
    (hv : jsTruthy v = true)
    (hnotok : ∀ d, outcome ≠ FetchOutcome.ok d) :
    (sendMessage s now v outcome).1.error
      = some "Failed to get AI response. Please try again." ∧
    (sendMessage s now v outcome).1.isLoading = false ∧
    (sendMessage s now v outcome).1.lastResponseId = s.lastResponseId ∧
    (sendMessage s now v outcome).1.messages
      = s.messages ++ [mkUserMessage s.input now] ∧
    (sendMessage s now v outcome).1.messages.filter
        (fun m => m.role = "assistant")
      = s.messages.filter (fun m => m.role = "assistant") := by
  refine ⟨?_, ?_, ?_, ?_, ?_⟩ <;>
    simp [sendMessage_fail s now v outcome hin hload hv hnotok,
      List.filter_append, mkUserMessage]

theorem c2_failed_turn_contract_witness :
    jsTrim sampleState.input ≠ "" ∧ sampleState.isLoading = false ∧
    jsTruthy (some "vs_1") = true ∧
    (∀ d, FetchOutcome.thrown ≠ FetchOutcome.ok d) ∧
    ((sendMessage sampleState 7 (some "vs_1") FetchOutcome.thrown).1.lastResponseId
        = sampleState.lastResponseId ∧
     (sendMessage sampleState 7 (some "vs_1") FetchOutcome.thrown).1.messages
        = sampleState.messages ++ [mkUserMessage sampleState.input 7]) := by
  have h := c2_failed_turn_contract sampleState 7 (some "vs_1")
    FetchOutcome.thrown (by decide) rfl (by decide)
    (fun d h => FetchOutcome.noConfusion h)
  exact ⟨by decide, rfl, by decide, fun d h => FetchOutcome.noConfusion h,
    h.2.2.1, h.2.2.2.1⟩

/-- C3: for every event sequence of a turn, the accumulated
`responseContent` equals the ordered concatenation of the delta payloads
processed so far (the statement holds for every list, hence for every
prefix of a turn's event sequence), and the `complete` frame emitted at the
terminal `response.completed` event carries exactly that concatenation as
its full text. -/
theorem c3_text_is_delta_concatenation (st : RouteState)
    (evs : List OAIEvent) (u : Option UsageInfo) :
    (routeFold st evs).1.responseContent =
      st.responseContent ++ strConcat (deltaTexts evs) ∧
    routeFold st (evs ++ [.responseCompleted u]) =
      ({ (routeFold st evs).1 with usage := u },
       (routeFold st evs).2 ++
         [Frame.complete (st.responseContent ++ strConcat (deltaTexts evs))
            (routeFold st evs).1.citations (routeFold st evs).1.responseId u]) := by
  refine ⟨routeFold_content st evs, ?_⟩
  rw [routeFold_append]
  simp [routeFold, routeStep, routeFold_content]

/-- C4: `sendMessage` called with empty or whitespace-only input, with no
vector store id (absent or empty), or while a turn is already in flight,
returns the state unchanged and sends no request; no error is surfaced. -/
theorem c4_guard_is_silent_noop
    (s : ChatState) (now : Nat) (v : Option String) (outcome : FetchOutcome)
    (h : jsTrim s.input = "" ∨ s.isLoading = true ∨ jsTruthy v = false) :
    sendMessage s now v outcome = (s, none) := by
  unfold sendMessage
  rw [if_pos h]

def busyState : ChatState :=
  { messages := [], input := "hello", isLoading := true,
    error := none, lastResponseId := some "r1" }

theorem c4_guard_is_silent_noop_witness :
    (jsTrim busyState.input = "" ∨ busyState.isLoading = true ∨
      jsTruthy (some "vs_1") = false) ∧
    sendMessage busyState 3 (some "vs_1") FetchOutcome.thrown = (busyState, none) :=
  ⟨Or.inr (Or.inl rfl),
   c4_guard_is_silent_noop busyState 3 (some "vs_1") FetchOutcome.thrown
     (Or.inr (Or.inl rfl))⟩

def inFlightState : ChatState :=
  { messages := [mkUserMessage "q" 1], input := "",
    isLoading := true, error := none, lastResponseId := some "r1" }

/-- C5 counterexample: the corpus-change reset effect leaves `isLoading`
untouched, so with a turn in flight (`isLoading = true`) the turn-in-flight
flag is still true immediately after the reset, contradicting the claim
that it is false immediately after. -/
theorem c5_reset_counterexample :
    inFlightState.isLoading = true ∧
    (resetOnNewPDF inFlightState).isLoading ≠ false := by
  exact ⟨rfl, by simp [resetOnNewPDF, inFlightState]⟩

/-- C5 (amended): whenever the active corpus handle changes, the reset
effect empties the transcript, nulls the continuation token and clears the
last error, together and regardless of prior state; the turn-in-flight
flag, however, is left exactly as it was — an in-flight turn is not
observably cancelled by the reset. -/
theorem c5_reset_clears_transcript_and_token (s : ChatState) :
    (resetOnNewPDF s).messages = [] ∧
    (resetOnNewPDF s).lastResponseId = none ∧
    (resetOnNewPDF s).error = none ∧
    (resetOnNewPDF s).isLoading = s.isLoading :=
  ⟨rfl, rfl, rfl, rfl⟩

/-- C6: every accepted turn's request body carries
`previousResponseId = lastResponseId`; when the route receives that body
with a present non-empty token it forwards it to the remote service as
`previous_response_id`, and when the token is absent the field is omitted
from the OpenAI request (the conditional spread drops it). -/
theorem c6_continuation_token_forwarding
    (s : ChatState) (now : Nat) (v : Option String) (outcome : FetchOutcome)
    (hin : jsTrim s.input ≠ "") (hload : s.isLoading = false)
    (hv : jsTruthy v = true) :
    ∃ req : ChatRequest,
      (sendMessage s now v outcome).2 = some req ∧
      req.previousResponseId = s.lastResponseId ∧
      (∀ t, s.lastResponseId = some t → t ≠ "" →
        ∃ o : OpenAIRequest, postHandler (toBody req) = .streaming o ∧
          o.previous_response_id = some t) ∧
      (s.lastResponseId = none →
        ∃ o : OpenAIRequest, postHandler (toBody req) = .streaming o ∧
          o.previous_response_id = none) := by
  have hreq : (sendMessage s now v outcome).2 =
      some { message := jsTrim s.input, vectorStoreId := v.getD "",
             previousResponseId := s.lastResponseId } := by
    cases outcome with
    | ok data => rw [sendMessage_ok s now v data hin hload hv]
    | httpError e =>
        rw [sendMessage_fail s now v (.httpError e) hin hload hv
          (fun d h => FetchOutcome.noConfusion h)]
    | thrown =>
        rw [sendMessage_fail s now v .thrown hin hload hv
          (fun d h => FetchOutcome.noConfusion h)]
  have hvd : v.getD "" ≠ "" := by
    cases v with
    | none => simp [jsTruthy] at hv
    | some x => simpa [jsTruthy] using hv
  refine ⟨_, hreq, rfl, ?_, ?_⟩
  · intro t ht htn
    refine ⟨{ model := "gpt-4o-mini", inputText := jsTrim s.input,
              vector_store_ids := [v.getD ""], previous_response_id := some t,
              store := true, stream := true }, ?_, rfl⟩
    simp [postHandler, toBody, hin, hvd, ht, jsTruthy, htn]
  · intro ht
    refine ⟨{ model := "gpt-4o-mini", inputText := jsTrim s.input,
              vector_store_ids := [v.getD ""], previous_response_id := none,
              store := true, stream := true }, ?_, rfl⟩
    simp [postHandler, toBody, hin, hvd, ht, jsTruthy]

def secondTurnState : ChatState :=
  { messages := [mkUserMessage "What is this document about?" 7,
                 mkAssistantMessage sampleData 7],
    input := "Tell me more", isLoading := false, error := none,
    lastResponseId := some "r1" }

theorem c6_continuation_token_forwarding_witness :
    jsTrim secondTurnState.input ≠ "" ∧ secondTurnState.isLoading = false ∧
    jsTruthy (some "vs_1") = true ∧ secondTurnState.lastResponseId = some "r1" ∧
    (∃ req : ChatRequest,
      (sendMessage secondTurnState 9 (some "vs_1") FetchOutcome.thrown).2
        = some req ∧
      req.previousResponseId = some "r1") := by
  obtain ⟨req, h1, h2, -⟩ := c6_continuation_token_forwarding secondTurnState 9
    (some "vs_1") FetchOutcome.thrown (by decide) rfl (by decide)
  exact ⟨by decide, rfl, by decide, rfl, req, h1, h2.trans rfl⟩

/-- C7: when the event stream ends without a terminal `response.completed`
event, the route emits no `complete` frame, so the client's
`response.json()` cannot yield a success payload and the turn resolves
through the same caught-error path as an explicit error response: the
observable result of a thrown resolution is literally equal to that of an
error resolution, the transcript gains the user message only (the partial
accumulated text never enters it), `lastResponseId` is unchanged and the
error field is set. -/
theorem c7_premature_termination_is_failure
    (st : RouteState) (evs : List OAIEvent)
    (s : ChatState) (now : Nat) (v : Option String) (e : Option String)
    (hterm : evs.all (fun ev => !isCompletedEvent ev) = true)
    (hin : jsTrim s.input ≠ "") (hload : s.isLoading = false)
    (hv : jsTruthy v = true) :
    (routeFold st evs).2.all (fun f => !isCompleteFrame f) = true ∧
    sendMessage s now v FetchOutcome.thrown
      = sendMessage s now v (.httpError e) ∧
    (sendMessage s now v FetchOutcome.thrown).1.messages
      = s.messages ++ [mkUserMessage s.input now] ∧
    (sendMessage s now v FetchOutcome.thrown).1.lastResponseId
      = s.lastResponseId ∧
    (sendMessage s now v FetchOutcome.thrown).1.error
      = some "Failed to get AI response. Please try again." := by
  have hthrown := sendMessage_fail s now v .thrown hin hload hv
    (fun d h => FetchOutcome.noConfusion h)
  have herr := sendMessage_fail s now v (.httpError e) hin hload hv
    (fun d h => FetchOutcome.noConfusion h)
  refine ⟨routeFold_no_complete_frame st evs hterm, hthrown.trans herr.symm,
    ?_, ?_, ?_⟩ <;> simp [hthrown]

theorem c7_premature_termination_is_failure_witness :
    ([OAIEvent.responseCreated "r0"].all (fun ev => !isCompletedEvent ev)
       = true) ∧
    jsTrim sampleState.input ≠ "" ∧ sampleState.isLoading = false ∧
    jsTruthy (some "vs_1") = true ∧
    ((routeFold initialRouteState [OAIEvent.responseCreated "r0"]).2.all
        (fun f => !isCompleteFrame f) = true ∧
     (sendMessage sampleState 7 (some "vs_1") FetchOutcome.thrown).1.lastResponseId
        = none) := by
  have h := c7_premature_termination_is_failure initialRouteState
    [.responseCreated "r0"] sampleState 7 (some "vs_1") none
    (by decide) (by decide) rfl (by decide)
  exact ⟨by decide, by decide, rfl, by decide, h.1, h.2.2.2.1.trans rfl⟩

/-- C8: an event whose discriminator has no `case` arm in the route's
switch leaves the loop locals (accumulated text, citations, recorded turn
id, usage) unchanged, enqueues nothing, and the fold simply continues with
the rest of the events. -/
theorem c8_unrecognized_event_skipped
    (st : RouteState) (tag : String) (rest : List OAIEvent) :
    routeStep st (.unrecognized tag) = (st, []) ∧
    routeFold st (.unrecognized tag :: rest) = routeFold st rest := by
  refine ⟨rfl, ?_⟩
  rw [routeFold_cons]
  simp [routeStep]

/-- C9: the citation list carried by the terminal `complete` frame is
exactly the sequence of `file_citation` annotation payloads observed during
the turn, in arrival order and without deduplication (the characterizing
function keeps duplicates); an annotation of any other type leaves the
state untouched and contributes no citation. -/
theorem c9_citations_in_arrival_order
    (st : RouteState) (evs : List OAIEvent) (u : Option UsageInfo) :
    (routeFold st evs).1.citations = st.citations ++ fileCitations evs ∧
    (routeStep (routeFold initialRouteState evs).1 (.responseCompleted u)).2 =
      [Frame.complete (routeFold initialRouteState evs).1.responseContent
        (fileCitations evs) (routeFold initialRouteState evs).1.responseId u] ∧
    (∀ a : AnnotationData, a.type ≠ "file_citation" →
      routeStep st (.annotationAdded a) = (st, [])) := by
  refine ⟨routeFold_citations st evs, ?_, ?_⟩
  · have hc : (routeFold initialRouteState evs).1.citations = fileCitations evs := by
      simpa [initialRouteState] using routeFold_citations initialRouteState evs
    simp [routeStep, hc]
  · intro a ha
    simp [routeStep, ha]

theorem c9_citations_in_arrival_order_witness :
    (AnnotationData.mk "url_citation" "f9" "w.pdf").type ≠ "file_citation" ∧
    routeStep initialRouteState
        (.annotationAdded ⟨"url_citation", "f9", "w.pdf"⟩)
      = (initialRouteState, []) :=
  ⟨by decide,
   (c9_citations_in_arrival_order initialRouteState [] none).2.2
     ⟨"url_citation", "f9", "w.pdf"⟩ (by decide)⟩

/-- C10: a POST body with no `message` field resolves to the 500
`'Failed to generate response'` response, never to the 400
`'Message is required'` validation response, because the logging call
dereferences `message.substring` before the `!message` check runs. -/
theorem c10_missing_message_is_500 (v p : Option String) :
    postHandler { message := none, vectorStoreId := v, previousResponseId := p }
      = .serverError "Failed to generate response" ∧
    postHandler { message := none, vectorStoreId := v, previousResponseId := p }
      ≠ .badRequest "Message is required" :=
  ⟨rfl, by simp [postHandler]⟩
